import Mathlib

/-!
Shallow embedding of the account-configuration subsystem of saml2aws
(src/pkg/cfg/cfg.go): the `IDPAccount` record, its provider-conditional
validation, default construction, human-readable rendering, and the
profile store's save/load cycle against the sectioned backing file.

The backing file's text encoding is provided by a third-party ini library
and is out of scope; it is modelled at the interface the spec describes: a
file is a list of named sections, a section is a list of key/value pairs,
and values are typed atoms (string, int, bool) matching the record fields
the library maps them to.
-/

set_option maxHeartbeats 1000000

/-- The error message of `ErrIdpAccountNotFound` (cfg.go line 14): returned
if the idp account is not found in the configuration file. Errors are
modelled as their message strings. -/
def ErrIdpAccountNotFound : String := "IDP account not found, run configure to set it up"

/-- DefaultAmazonWebservicesURN (cfg.go line 22). -/
def DefaultAmazonWebservicesURN : String := "urn:amazon:webservices"

/-- DefaultSessionDuration (cfg.go line 26). -/
def DefaultSessionDuration : Int := 3600

/-- DefaultProfile (cfg.go line 29). -/
def DefaultProfile : String := "saml"

/-- The `IDPAccount` struct (cfg.go lines 36-73), one field per Go struct
field, in declaration order. Go `string` becomes `String`, `int` becomes
`Int`, `bool` becomes `Bool`. -/
structure IDPAccount where
  Name : String
  AppID : String
  URL : String
  Username : String
  Provider : String
  BrowserType : String
  BrowserExecutablePath : String
  BrowserAutoFill : Bool
  MFA : String
  MFAIPAddress : String
  SkipVerify : Bool
  Timeout : Int
  AmazonWebservicesURN : String
  SessionDuration : Int
  Profile : String
  ResourceID : String
  Subdomain : String
  RoleARN : String
  PolicyFile : String
  PolicyARNs : String
  Region : String
  HttpAttemptsCount : String
  HttpRetryDelay : String
  CredentialsFile : String
  SAMLCache : Bool
  SAMLCacheFile : String
  TargetURL : String
  DisableRememberDevice : Bool
  DisableSessions : Bool
  DownloadBrowser : Bool
  BrowserDriverDir : String
  Headless : Bool
  Prompter : String
  KCAuthErrorMessage : String
  KCAuthErrorElement : String
  KCBroker : String
deriving DecidableEq

/-- The Go zero value of `IDPAccount`: every string empty, every int 0,
every bool false. -/
def emptyIDPAccount : IDPAccount :=
  { Name := "", AppID := "", URL := "", Username := "", Provider := ""
    BrowserType := "", BrowserExecutablePath := "", BrowserAutoFill := false
    MFA := "", MFAIPAddress := "", SkipVerify := false, Timeout := 0
    AmazonWebservicesURN := "", SessionDuration := 0, Profile := ""
    ResourceID := "", Subdomain := "", RoleARN := "", PolicyFile := ""
    PolicyARNs := "", Region := "", HttpAttemptsCount := "", HttpRetryDelay := ""
    CredentialsFile := "", SAMLCache := false, SAMLCacheFile := ""
    TargetURL := "", DisableRememberDevice := false, DisableSessions := false
    DownloadBrowser := false, BrowserDriverDir := "", Headless := false
    Prompter := "", KCAuthErrorMessage := "", KCAuthErrorElement := ""
    KCBroker := "" }

/-- Modelled from the spec: Go's `net/url.Parse` is an external standard
library function, specified here only at its interface boundary. Per spec
section 8, a URL that contains an unencoded control character fails the
syntactic parse; otherwise it parses. ASCII control characters are code
points below 32 and the delete character 127. -/
def urlParseOk (s : String) : Bool :=
  s.toList.all (fun c => !(c.toNat < 32 || c.toNat == 127))

/-- Modelled from the spec: `prompter.ValidateAndSetPrompter` lives in the
repository package pkg/prompter, which is not under src/. Per spec section
6 it validates (and activates) a prompter by name and fails iff the name is
unrecognized; per the section 8 example scenario, a record with the
prompter field left empty validates successfully, so the empty (default)
name is recognized. The spec enumerates no other recognized name, so the
model recognizes exactly the default. `none` means success; `some e` is the
error message propagated verbatim. -/
def validateAndSetPrompter (name : String) : Option String :=
  if name = "" then none else some ("unrecognized prompter: " ++ name)

/-- The provider switch at the top of `IDPAccount.Validate` (cfg.go lines
111-127): OneLogin requires AppID then Subdomain, F5APM requires
ResourceID, AzureAD requires AppID; any other provider passes through. -/
def IDPAccount.providerSwitch (ia : IDPAccount) : Option String :=
  if ia.Provider = "OneLogin" then
    if ia.AppID = "" then some "app ID empty in idp account"
    else if ia.Subdomain = "" then some "subdomain empty in idp account"
    else none
  else if ia.Provider = "F5APM" then
    if ia.ResourceID = "" then some "Resource ID empty in idp account"
    else none
  else if ia.Provider = "AzureAD" then
    if ia.AppID = "" then some "app ID empty in idp account"
    else none
  else none

/-- `IDPAccount.Validate` (cfg.go lines 110-157). Returns `none` when the
record is valid, `some message` for the first failing check. The Go code
returns the provider-switch error immediately when there is one, then
checks URL emptiness, URL parse, provider emptiness, the MFA field (unless
the provider is "Browser"), the profile, and finally delegates to the
prompter registry. -/
def IDPAccount.Validate (ia : IDPAccount) : Option String :=
  match ia.providerSwitch with
  | some e => some e
  | none =>
    if ia.URL = "" then some "URL empty in idp account"
    else if ¬ urlParseOk ia.URL then some "URL parse failed"
    else if ia.Provider = "" then some "Provider empty in idp account"
    else if ia.Provider ≠ "Browser" ∧ ia.MFA = "" then some "MFA empty in idp account"
    else if ia.Profile = "" then some "Profile empty in idp account"
    else validateAndSetPrompter ia.Prompter

/-- `NewIDPAccount` (cfg.go lines 160-166): the zero record with the three
defaulted fields filled in. -/
def NewIDPAccount : IDPAccount :=
  { emptyIDPAccount with
    AmazonWebservicesURN := DefaultAmazonWebservicesURN
    SessionDuration := DefaultSessionDuration
    Profile := DefaultProfile }

/-- Go fmt rendering of a bool with the %v verb. -/
def fmtBool (b : Bool) : String := if b then "true" else "false"

/-- The `String()` method of `IDPAccount` (cfg.go lines 75-107), the
human-readable summary. The provider switch fills exactly one of the three
optional segments; all other providers leave all three empty. Note that the
Okta segment (cfg.go lines 90-92) interpolates `ia.DisableSessions` for
both the DisableSessions and the DisableRememberDevice line. -/
def IDPAccount.toString (ia : IDPAccount) : String :=
  let appID : String :=
    if ia.Provider = "OneLogin" then
      "\n  AppID: " ++ ia.AppID ++ "\n  Subdomain: " ++ ia.Subdomain
    else if ia.Provider = "AzureAD" then
      "\n  AppID: " ++ ia.AppID
    else ""
  let policyID : String :=
    if ia.Provider = "F5APM" then "\n  ResourceID: " ++ ia.ResourceID else ""
  let oktaCfg : String :=
    if ia.Provider = "Okta" then
      "\n  DisableSessions: " ++ fmtBool ia.DisableSessions
        ++ "\n  DisableRememberDevice: " ++ fmtBool ia.DisableSessions
    else ""
  "account \x7b" ++ appID ++ policyID ++ oktaCfg
    ++ "\n  URL: " ++ ia.URL
    ++ "\n  Username: " ++ ia.Username
    ++ "\n  Provider: " ++ ia.Provider
    ++ "\n  MFA: " ++ ia.MFA
    ++ "\n  SkipVerify: " ++ fmtBool ia.SkipVerify
    ++ "\n  AmazonWebservicesURN: " ++ ia.AmazonWebservicesURN
    ++ "\n  SessionDuration: " ++ ToString.toString ia.SessionDuration
    ++ "\n  Profile: " ++ ia.Profile
    ++ "\n  RoleARN: " ++ ia.RoleARN
    ++ "\n  Region: " ++ ia.Region
    ++ "\n\x7d"

/-- A value stored under a key of a section of the backing file. The text
encoding of values belongs to the third-party ini library, which the spec
places out of scope; values are modelled as the typed atoms the library
converts them to and from (string, int, bool). -/
inductive IniValue where
  | str (s : String)
  | int (n : Int)
  | bool (b : Bool)
deriving DecidableEq

/-- A named section of the backing file: its key/value pairs in order. -/
abbrev IniSection := List (String × IniValue)

/-- The backing file: a list of named sections (spec section 6: a
structured-text key/value file with named sections). -/
abbrev IniFile := List (String × IniSection)

/-- First value stored under key `k` in a section, if any. -/
def lookupKey : IniSection → String → Option IniValue
  | [], _ => none
  | (k0, v) :: rest, k => if k0 = k then some v else lookupKey rest k

/-- First section named `n` in the file, if any. -/
def lookupSection : IniFile → String → Option IniSection
  | [], _ => none
  | (m, s) :: rest, n => if m = n then some s else lookupSection rest n

/-- The section named `n`, or the empty section when absent — as go-ini's
`File.Section` hands `MapTo` a fresh empty section for an absent name. -/
def getSection (f : IniFile) (n : String) : IniSection :=
  (lookupSection f n).getD []

/-- Modelled from the spec (save step 3, "create or replace the named
section"): replace the first section with this name, or append a new one. -/
def setSection : IniFile → String → IniSection → IniFile
  | [], n, sec => [(n, sec)]
  | (m, s) :: rest, n, sec =>
    if m = n then (n, sec) :: rest else (m, s) :: setSection rest n sec

/-- Modelled from the spec (save step 4): `ReflectFrom` of the third-party
ini library maps every record field into the section under the field's
declared persisted key name — the ini struct tags of cfg.go lines 37-72, in
declaration order — honoring the per-field omitempty annotations
(browser_type, browser_executable_path, browser_autofill,
browser_driver_dir, kc_auth_error_message, kc_auth_error_element), which
skip the key when the field holds its zero value. -/
def reflectFrom (a : IDPAccount) : IniSection :=
  [("name", IniValue.str a.Name),
   ("app_id", IniValue.str a.AppID),
   ("url", IniValue.str a.URL),
   ("username", IniValue.str a.Username),
   ("provider", IniValue.str a.Provider)]
  ++ (if a.BrowserType = "" then [] else [("browser_type", IniValue.str a.BrowserType)])
  ++ (if a.BrowserExecutablePath = "" then []
      else [("browser_executable_path", IniValue.str a.BrowserExecutablePath)])
  ++ (if a.BrowserAutoFill = false then []
      else [("browser_autofill", IniValue.bool a.BrowserAutoFill)])
  ++ [("mfa", IniValue.str a.MFA),
      ("mfa_ip_address", IniValue.str a.MFAIPAddress),
      ("skip_verify", IniValue.bool a.SkipVerify),
      ("timeout", IniValue.int a.Timeout),
      ("aws_urn", IniValue.str a.AmazonWebservicesURN),
      ("aws_session_duration", IniValue.int a.SessionDuration),
      ("aws_profile", IniValue.str a.Profile),
      ("resource_id", IniValue.str a.ResourceID),
      ("subdomain", IniValue.str a.Subdomain),
      ("role_arn", IniValue.str a.RoleARN),
      ("policy_file", IniValue.str a.PolicyFile),
      ("policy_arn_list", IniValue.str a.PolicyARNs),
      ("region", IniValue.str a.Region),
      ("http_attempts_count", IniValue.str a.HttpAttemptsCount),
      ("http_retry_delay", IniValue.str a.HttpRetryDelay),
      ("credentials_file", IniValue.str a.CredentialsFile),
      ("saml_cache", IniValue.bool a.SAMLCache),
      ("saml_cache_file", IniValue.str a.SAMLCacheFile),
      ("target_url", IniValue.str a.TargetURL),
      ("disable_remember_device", IniValue.bool a.DisableRememberDevice),
      ("disable_sessions", IniValue.bool a.DisableSessions),
      ("download_browser_driver", IniValue.bool a.DownloadBrowser)]
  ++ (if a.BrowserDriverDir = "" then []
      else [("browser_driver_dir", IniValue.str a.BrowserDriverDir)])
  ++ [("headless", IniValue.bool a.Headless),
      ("prompter", IniValue.str a.Prompter)]
  ++ (if a.KCAuthErrorMessage = "" then []
      else [("kc_auth_error_message", IniValue.str a.KCAuthErrorMessage)])
  ++ (if a.KCAuthErrorElement = "" then []
      else [("kc_auth_error_element", IniValue.str a.KCAuthErrorElement)])
  ++ [("kc_broker", IniValue.str a.KCBroker)]

/-- First-some choice between two optional values, used to chain lookups
across list appends. -/
def optOr (o1 o2 : Option IniValue) : Option IniValue :=
  match o1 with
  | some v => some v
  | none => o2

/-- A looked-up value read back as a string: a stored string overlays the
default, anything else keeps the default. -/
def strOr (o : Option IniValue) (d : String) : String :=
  match o with
  | some (IniValue.str s) => s
  | _ => d

/-- A looked-up value read back as an int. -/
def intOr (o : Option IniValue) (d : Int) : Int :=
  match o with
  | some (IniValue.int n) => n
  | _ => d

/-- A looked-up value read back as a bool. -/
def boolOr (o : Option IniValue) (d : Bool) : Bool :=
  match o with
  | some (IniValue.bool b) => b
  | _ => d

/-- String field read during `MapTo`. -/
def getStr (sec : IniSection) (k : String) (d : String) : String :=
  strOr (lookupKey sec k) d

/-- Int field read during `MapTo`. -/
def getInt (sec : IniSection) (k : String) (d : Int) : Int :=
  intOr (lookupKey sec k) d

/-- Bool field read during `MapTo`. -/
def getBool (sec : IniSection) (k : String) (d : Bool) : Bool :=
  boolOr (lookupKey sec k) d

/-- Modelled from the spec (load step 3): `MapTo` of the third-party ini
library overlays the section's stored keys onto the given record's matching
fields; fields whose key is absent keep their value from `a`. Keys are the
same ini struct tags used by `reflectFrom`. -/
def mapTo (sec : IniSection) (a : IDPAccount) : IDPAccount :=
  { Name := getStr sec "name" a.Name
    AppID := getStr sec "app_id" a.AppID
    URL := getStr sec "url" a.URL
    Username := getStr sec "username" a.Username
    Provider := getStr sec "provider" a.Provider
    BrowserType := getStr sec "browser_type" a.BrowserType
    BrowserExecutablePath := getStr sec "browser_executable_path" a.BrowserExecutablePath
    BrowserAutoFill := getBool sec "browser_autofill" a.BrowserAutoFill
    MFA := getStr sec "mfa" a.MFA
    MFAIPAddress := getStr sec "mfa_ip_address" a.MFAIPAddress
    SkipVerify := getBool sec "skip_verify" a.SkipVerify
    Timeout := getInt sec "timeout" a.Timeout
    AmazonWebservicesURN := getStr sec "aws_urn" a.AmazonWebservicesURN
    SessionDuration := getInt sec "aws_session_duration" a.SessionDuration
    Profile := getStr sec "aws_profile" a.Profile
    ResourceID := getStr sec "resource_id" a.ResourceID
    Subdomain := getStr sec "subdomain" a.Subdomain
    RoleARN := getStr sec "role_arn" a.RoleARN
    PolicyFile := getStr sec "policy_file" a.PolicyFile
    PolicyARNs := getStr sec "policy_arn_list" a.PolicyARNs
    Region := getStr sec "region" a.Region
    HttpAttemptsCount := getStr sec "http_attempts_count" a.HttpAttemptsCount
    HttpRetryDelay := getStr sec "http_retry_delay" a.HttpRetryDelay
    CredentialsFile := getStr sec "credentials_file" a.CredentialsFile
    SAMLCache := getBool sec "saml_cache" a.SAMLCache
    SAMLCacheFile := getStr sec "saml_cache_file" a.SAMLCacheFile
    TargetURL := getStr sec "target_url" a.TargetURL
    DisableRememberDevice := getBool sec "disable_remember_device" a.DisableRememberDevice
    DisableSessions := getBool sec "disable_sessions" a.DisableSessions
    DownloadBrowser := getBool sec "download_browser_driver" a.DownloadBrowser
    BrowserDriverDir := getStr sec "browser_driver_dir" a.BrowserDriverDir
    Headless := getBool sec "headless" a.Headless
    Prompter := getStr sec "prompter" a.Prompter
    KCAuthErrorMessage := getStr sec "kc_auth_error_message" a.KCAuthErrorMessage
    KCAuthErrorElement := getStr sec "kc_auth_error_element" a.KCAuthErrorElement
    KCBroker := getStr sec "kc_broker" a.KCBroker }

/-- `errors.Wrap(err, msg)` of the pkg/errors library, rendered as go does
when printing the wrapped error: the context message, a colon and the
cause. -/
def wrapErr (msg cause : String) : String := msg ++ ": " ++ cause

/-- `ConfigManager.SaveIDPAccount` (cfg.go lines 189-215) as a function of
the parsed backing-file state (the manager's configPath and the on-disk
round trip through the loose ini parser are out of scope; the file is
passed in and the resulting file contents are returned). Validation failure
returns the wrapped error and leaves the file untouched; otherwise the
named section is created-or-replaced with the reflected record. -/
def SaveIDPAccount (file : IniFile) (idpAccountName : String) (account : IDPAccount) :
    Option String × IniFile :=
  match account.Validate with
  | some e => (some (wrapErr "Account validation failed" e), file)
  | none => (none, setSection file idpAccountName (reflectFrom account))

/-- `readAccount` (cfg.go lines 238-250): default-construct, then overlay
the named section (empty when absent). The Go error path exists only for
reflection failures inside the external `MapTo`, which the section model
cannot produce, so the result is always `Except.ok`. -/
def readAccount (idpAccountName : String) (cfg : IniFile) : Except String IDPAccount :=
  Except.ok (mapTo (getSection cfg idpAccountName) NewIDPAccount)

/-- `ConfigManager.LoadIDPAccount` (cfg.go lines 218-236) as a function of
the parsed backing-file state: read the account for the name, wrap a read
failure, and stamp the record's Name with the requested profile name. -/
def LoadIDPAccount (file : IniFile) (idpAccountName : String) : Except String IDPAccount :=
  match readAccount idpAccountName file with
  | Except.error e => Except.error (wrapErr "Unable to read idp account" e)
  | Except.ok account => Except.ok { account with Name := idpAccountName }

/-- Spec rule 1: appID is required for the providers in the
required-app-ID set (OneLogin, AzureAD). -/
def specRule1 (a : IDPAccount) : Option String :=
  if (a.Provider = "OneLogin" ∨ a.Provider = "AzureAD") ∧ a.AppID = ""
  then some "app ID empty in idp account" else none

/-- Spec rule 2: subdomain is required for OneLogin. -/
def specRule2 (a : IDPAccount) : Option String :=
  if a.Provider = "OneLogin" ∧ a.Subdomain = ""
  then some "subdomain empty in idp account" else none

/-- Spec rule 3: resourceID is required for F5APM. -/
def specRule3 (a : IDPAccount) : Option String :=
  if a.Provider = "F5APM" ∧ a.ResourceID = ""
  then some "Resource ID empty in idp account" else none

/-- Spec rule 4: the URL must be non-empty. -/
def specRule4 (a : IDPAccount) : Option String :=
  if a.URL = "" then some "URL empty in idp account" else none

/-- Spec rule 5: the URL must parse. -/
def specRule5 (a : IDPAccount) : Option String :=
  if ¬ urlParseOk a.URL then some "URL parse failed" else none

/-- Spec rule 6: the provider must be non-empty. -/
def specRule6 (a : IDPAccount) : Option String :=
  if a.Provider = "" then some "Provider empty in idp account" else none

/-- Spec rule 7: the MFA field must be non-empty unless the provider is the
browser provider. -/
def specRule7 (a : IDPAccount) : Option String :=
  if a.Provider ≠ "Browser" ∧ a.MFA = ""
  then some "MFA empty in idp account" else none

/-- Spec rule 8: the profile must be non-empty. -/
def specRule8 (a : IDPAccount) : Option String :=
  if a.Profile = "" then some "Profile empty in idp account" else none

/-- Spec rule 9: prompter validation, delegated to the prompter registry. -/
def specRule9 (a : IDPAccount) : Option String :=
  validateAndSetPrompter a.Prompter

/-- The nine validation rules in exactly the order the spec lists them. -/
def specRules : List (IDPAccount → Option String) :=
  [specRule1, specRule2, specRule3, specRule4, specRule5,
   specRule6, specRule7, specRule8, specRule9]

/-- Left-biased choice between error results: an earlier failure wins. -/
def orElseErr (o1 o2 : Option String) : Option String :=
  match o1 with
  | some e => some e
  | none => o2

/-- The error of the first rule that fails, never aggregating errors. -/
def firstFailure : List (IDPAccount → Option String) → IDPAccount → Option String
  | [], _ => none
  | r :: rest, a => orElseErr (r a) (firstFailure rest a)

/-- Validation as the spec words it: the nine rules evaluated in the listed
order, first failure wins. -/
def specValidate (a : IDPAccount) : Option String :=
  firstFailure specRules a

/-- A valid Okta-provider record used to instantiate theorems at concrete
inputs. -/
def sampleOktaAccount : IDPAccount :=
  { NewIDPAccount with
    Provider := "Okta"
    URL := "https://example.okta.com"
    MFA := "push"
    Username := "jess" }

/-- A valid browser-provider record with no MFA method set. -/
def sampleBrowserAccount : IDPAccount :=
  { NewIDPAccount with
    Provider := "Browser"
    URL := "https://id.example.com" }

theorem lookupKey_nil (k : String) : lookupKey [] k = none := rfl

theorem lookupKey_cons (k0 : String) (v : IniValue) (rest : IniSection) (k : String) :
    lookupKey ((k0, v) :: rest) k = if k0 = k then some v else lookupKey rest k := rfl

theorem lookupKey_append (s1 s2 : IniSection) (k : String) :
    lookupKey (s1 ++ s2) k = optOr (lookupKey s1 k) (lookupKey s2 k) := by
  induction s1 with
  | nil => rfl
  | cons p rest ih =>
    obtain ⟨k0, v⟩ := p
    simp only [List.cons_append, lookupKey]
    split
    · rfl
    · exact ih

theorem lookupKey_ite (c : Prop) [Decidable c] (s1 s2 : IniSection) (k : String) :
    lookupKey (if c then s1 else s2) k = if c then lookupKey s1 k else lookupKey s2 k := by
  split <;> simp [*]

theorem optOr_some (v : IniValue) (o : Option IniValue) : optOr (some v) o = some v := rfl

theorem optOr_none (o : Option IniValue) : optOr none o = o := rfl

theorem optOr_ite (c : Prop) [Decidable c] (o1 o2 o : Option IniValue) :
    optOr (if c then o1 else o2) o = if c then optOr o1 o else optOr o2 o := by
  split <;> rfl

theorem strOr_str (s : String) (d : String) : strOr (some (IniValue.str s)) d = s := rfl

theorem strOr_none (d : String) : strOr none d = d := rfl

theorem strOr_ite (c : Prop) [Decidable c] (o1 o2 : Option IniValue) (d : String) :
    strOr (if c then o1 else o2) d = if c then strOr o1 d else strOr o2 d := by
  split <;> rfl

theorem intOr_int (n : Int) (d : Int) : intOr (some (IniValue.int n)) d = n := rfl

theorem intOr_none (d : Int) : intOr none d = d := rfl

theorem intOr_ite (c : Prop) [Decidable c] (o1 o2 : Option IniValue) (d : Int) :
    intOr (if c then o1 else o2) d = if c then intOr o1 d else intOr o2 d := by
  split <;> rfl

theorem boolOr_bool (b : Bool) (d : Bool) : boolOr (some (IniValue.bool b)) d = b := rfl

theorem boolOr_none (d : Bool) : boolOr none d = d := rfl

theorem boolOr_ite (c : Prop) [Decidable c] (o1 o2 : Option IniValue) (d : Bool) :
    boolOr (if c then o1 else o2) d = if c then boolOr o1 d else boolOr o2 d := by
  split <;> rfl

/-- Overlaying the reflection of a record onto any base record restores the
record: every non-omitempty key is stored, and every omitempty key is
skipped exactly when the field holds its zero value, in which case `mapTo`
falls back to the base record's field, which the hypotheses pin to that
same zero value. -/
theorem mapTo_reflectFrom (a d : IDPAccount)
    (h1 : d.BrowserType = "") (h2 : d.BrowserExecutablePath = "")
    (h3 : d.BrowserAutoFill = false) (h4 : d.BrowserDriverDir = "")
    (h5 : d.KCAuthErrorMessage = "") (h6 : d.KCAuthErrorElement = "") :
    mapTo (reflectFrom a) d = a := by
  cases a
  cases d
  simp only at h1 h2 h3 h4 h5 h6
  subst_vars
  simp only [mapTo, reflectFrom, getStr, getInt, getBool,
    lookupKey_append, lookupKey_ite, lookupKey_cons, lookupKey_nil,
    optOr_ite, optOr_some, optOr_none, strOr_ite, intOr_ite, boolOr_ite,
    strOr_str, strOr_none, intOr_int, intOr_none, boolOr_bool, boolOr_none]
  simp
  exact ⟨fun h => h.symm, fun h => h.symm, fun h => h.symm,
    fun h => h.symm, fun h => h.symm⟩

theorem orElseErr_some (e : String) (o : Option String) :
    orElseErr (some e) o = some e := rfl

theorem orElseErr_none (o : Option String) : orElseErr none o = o := rfl

theorem orElseErr_ite (c : Prop) [Decidable c] (o1 o2 o : Option String) :
    orElseErr (if c then o1 else o2) o = if c then orElseErr o1 o else orElseErr o2 o := by
  split <;> rfl

theorem orElseErr_right_none (o : Option String) : orElseErr o none = o := by
  cases o <;> rfl

theorem orElseErr_assoc (o1 o2 o3 : Option String) :
    orElseErr (orElseErr o1 o2) o3 = orElseErr o1 (orElseErr o2 o3) := by
  cases o1 <;> rfl

theorem firstFailure_append (l1 l2 : List (IDPAccount → Option String)) (a : IDPAccount) :
    firstFailure (l1 ++ l2) a = orElseErr (firstFailure l1 a) (firstFailure l2 a) := by
  induction l1 with
  | nil => rfl
  | cons r rest ih =>
    simp only [List.cons_append, firstFailure, List.append_eq, ih, orElseErr_assoc]

/-- The first three spec rules compute exactly the provider switch of the
source. -/
theorem firstFailure_providerRules (a : IDPAccount) :
    firstFailure [specRule1, specRule2, specRule3] a = a.providerSwitch := by
  simp only [firstFailure, specRule1, specRule2, specRule3, IDPAccount.providerSwitch,
    orElseErr_ite, orElseErr_some, orElseErr_none]
  split_ifs <;> simp_all

/-- Rules four to nine compute exactly the check chain after the provider
switch of the source. -/
theorem firstFailure_generalRules (a : IDPAccount) :
    firstFailure [specRule4, specRule5, specRule6, specRule7, specRule8, specRule9] a
      = (if a.URL = "" then some "URL empty in idp account"
         else if ¬ urlParseOk a.URL then some "URL parse failed"
         else if a.Provider = "" then some "Provider empty in idp account"
         else if a.Provider ≠ "Browser" ∧ a.MFA = "" then some "MFA empty in idp account"
         else if a.Profile = "" then some "Profile empty in idp account"
         else validateAndSetPrompter a.Prompter) := by
  simp only [firstFailure, specRule4, specRule5, specRule6, specRule7, specRule8,
    specRule9, orElseErr_ite, orElseErr_some, orElseErr_none, orElseErr_right_none]

theorem lookupSection_setSection_self (f : IniFile) (n : String) (sec : IniSection) :
    lookupSection (setSection f n sec) n = some sec := by
  induction f with
  | nil => simp [setSection, lookupSection]
  | cons p rest ih =>
    obtain ⟨m, s⟩ := p
    simp only [setSection]
    split
    · simp [lookupSection]
    · simp [lookupSection, *]

theorem lookupSection_setSection_ne (f : IniFile) (nA nB : String) (sec : IniSection)
    (h : nA ≠ nB) :
    lookupSection (setSection f nA sec) nB = lookupSection f nB := by
  induction f with
  | nil => simp [setSection, lookupSection, h]
  | cons p rest ih =>
    obtain ⟨m, s⟩ := p
    simp only [setSection]
    split
    · simp_all [lookupSection]
    · simp [lookupSection, ih]

/-- C1: saving a record that passes validation under profile name `p` to an
empty backing file succeeds, and loading profile `p` from the resulting
file yields a record whose persisted fields equal the saved values and
whose Name field equals `p`. -/
theorem c1_save_load_roundtrip (a : IDPAccount) (p : String)
    (h : a.Validate = none) :
    (SaveIDPAccount [] p a).1 = none ∧
    LoadIDPAccount (SaveIDPAccount [] p a).2 p = Except.ok { a with Name := p } := by
  have hm : mapTo (reflectFrom a) NewIDPAccount = a :=
    mapTo_reflectFrom a NewIDPAccount rfl rfl rfl rfl rfl rfl
  refine ⟨by simp [SaveIDPAccount, h], ?_⟩
  simp [SaveIDPAccount, h, LoadIDPAccount, readAccount, getSection, setSection,
    lookupSection, hm]

/-- C1 witness: the round trip at a concrete valid Okta record and profile
name "dev". -/
theorem c1_save_load_roundtrip_witness :
    (SaveIDPAccount [] "dev" sampleOktaAccount).1 = none ∧
    LoadIDPAccount (SaveIDPAccount [] "dev" sampleOktaAccount).2 "dev"
      = Except.ok { sampleOktaAccount with Name := "dev" } :=
  c1_save_load_roundtrip sampleOktaAccount "dev" (by decide)

/-- C2: when validation fails, SaveIDPAccount returns the wrapped
validation error and the backing file is unchanged. -/
theorem c2_save_validation_failure (f : IniFile) (p : String) (a : IDPAccount)
    (e : String) (h : a.Validate = some e) :
    SaveIDPAccount f p a = (some (wrapErr "Account validation failed" e), f) := by
  simp [SaveIDPAccount, h]

/-- C2 witness: saving the all-empty record into a one-section file fails
with the wrapped URL-empty error and leaves the file as it was. -/
theorem c2_save_validation_failure_witness :
    SaveIDPAccount [("b", [("url", IniValue.str "x")])] "p" emptyIDPAccount
      = (some (wrapErr "Account validation failed" "URL empty in idp account"),
         [("b", [("url", IniValue.str "x")])]) :=
  c2_save_validation_failure [("b", [("url", IniValue.str "x")])] "p"
    emptyIDPAccount "URL empty in idp account" (by decide)

/-- C3: loading a profile name absent from the backing file returns, without
error, the default-constructed record (federation URN
"urn:amazon:webservices", session duration 3600, profile "saml", all other
persisted fields zero) with its Name stamped with the requested name. -/
theorem c3_load_absent_defaults (f : IniFile) (p : String)
    (h : lookupSection f p = none) :
    LoadIDPAccount f p = Except.ok { NewIDPAccount with Name := p } ∧
    NewIDPAccount.AmazonWebservicesURN = "urn:amazon:webservices" ∧
    NewIDPAccount.SessionDuration = 3600 ∧
    NewIDPAccount.Profile = "saml" := by
  refine ⟨?_, rfl, rfl, rfl⟩
  have hm : mapTo [] NewIDPAccount = NewIDPAccount := rfl
  simp [LoadIDPAccount, readAccount, getSection, h, hm]

/-- C3 witness: loading "missing" from a file holding only an unrelated
section. -/
theorem c3_load_absent_defaults_witness :
    LoadIDPAccount [("other", [])] "missing"
      = Except.ok { NewIDPAccount with Name := "missing" } ∧
    NewIDPAccount.AmazonWebservicesURN = "urn:amazon:webservices" ∧
    NewIDPAccount.SessionDuration = 3600 ∧
    NewIDPAccount.Profile = "saml" :=
  c3_load_absent_defaults [("other", [])] "missing" (by decide)

/-- C4: Validate computes exactly the first failure of the nine spec rules
evaluated in the listed order, never aggregating errors; in particular the
all-empty record fails with the URL-empty error, not the provider-empty
error. -/
theorem c4_validate_rule_order :
    (∀ a : IDPAccount, a.Validate = specValidate a) ∧
    emptyIDPAccount.Validate = some "URL empty in idp account" := by
  refine ⟨?_, by decide⟩
  intro a
  have hsplit : specRules
      = [specRule1, specRule2, specRule3]
        ++ [specRule4, specRule5, specRule6, specRule7, specRule8, specRule9] := rfl
  rw [specValidate, hsplit, firstFailure_append, firstFailure_providerRules,
    firstFailure_generalRules]
  unfold IDPAccount.Validate
  cases hps : a.providerSwitch <;> simp [orElseErr]

/-- C5 counterexample: the claim says the record's name attribute is not
written into the file as a key/value pair of the section; but saving a
valid record whose Name field is "oldname" stores the pair
name = "oldname" in the saved section. -/
theorem c5_name_key_counterexample :
    lookupKey
      (getSection
        (SaveIDPAccount [] "prof" { sampleOktaAccount with Name := "oldname" }).2 "prof")
      "name"
      = some (IniValue.str "oldname") := by decide

/-- C5 amended: the save maps every field, Name included (its ini tag
`name` carries no omitempty), so the section stored under the profile name
contains the key "name" holding the record's own Name value; the profile
name passed to save appears as the section name. -/
theorem c5_name_key_persisted (f : IniFile) (p : String) (a : IDPAccount)
    (h : a.Validate = none) :
    lookupSection (SaveIDPAccount f p a).2 p = some (reflectFrom a) ∧
    lookupKey (getSection (SaveIDPAccount f p a).2 p) "name"
      = some (IniValue.str a.Name) := by
  have hsec : lookupSection (SaveIDPAccount f p a).2 p = some (reflectFrom a) := by
    simp [SaveIDPAccount, h, lookupSection_setSection_self]
  refine ⟨hsec, ?_⟩
  simp [getSection, hsec, reflectFrom, lookupKey_cons]

/-- C5 amended witness: at a concrete valid record saved under "prof2". -/
theorem c5_name_key_persisted_witness :
    lookupSection (SaveIDPAccount [] "prof2" sampleBrowserAccount).2 "prof2"
      = some (reflectFrom sampleBrowserAccount) ∧
    lookupKey (getSection (SaveIDPAccount [] "prof2" sampleBrowserAccount).2 "prof2") "name"
      = some (IniValue.str sampleBrowserAccount.Name) :=
  c5_name_key_persisted [] "prof2" sampleBrowserAccount (by decide)

/-- C6: a record with the "Browser" provider and the other required fields
set validates even with an empty MFA field, while a record with any other
provider and an empty MFA field never validates. -/
theorem c6_browser_mfa (a b : IDPAccount)
    (hp : a.Provider = "Browser") (hmfa : a.MFA = "")
    (hurl : a.URL ≠ "") (hparse : urlParseOk a.URL = true)
    (hprof : a.Profile ≠ "") (hprompt : validateAndSetPrompter a.Prompter = none)
    (hbp : b.Provider ≠ "Browser") (hbm : b.MFA = "") :
    a.Validate = none ∧ b.Validate ≠ none := by
  constructor
  · simp [IDPAccount.Validate, IDPAccount.providerSwitch, hp, hmfa, hurl, hparse,
      hprof, hprompt]
  · cases hps : b.providerSwitch with
    | some e => simp [IDPAccount.Validate, hps]
    | none =>
      simp only [IDPAccount.Validate, hps]
      split_ifs <;> simp_all

/-- C6 witness: a concrete MFA-less Browser record validates; a concrete
MFA-less Okta record does not. -/
theorem c6_browser_mfa_witness :
    sampleBrowserAccount.Validate = none ∧
    ({ emptyIDPAccount with Provider := "Okta" } : IDPAccount).Validate ≠ none :=
  c6_browser_mfa sampleBrowserAccount { emptyIDPAccount with Provider := "Okta" }
    (by decide) (by decide) (by decide) (by decide) (by decide) (by decide)
    (by decide) (by decide)

/-- C7: saving a valid record under profile name `nA` leaves an existing
unrelated section `nB` present with its keys and values unaltered. -/
theorem c7_save_frame (f : IniFile) (nA nB : String) (a : IDPAccount)
    (secB : IniSection) (hne : nA ≠ nB) (hv : a.Validate = none)
    (hB : lookupSection f nB = some secB) :
    lookupSection (SaveIDPAccount f nA a).2 nB = some secB := by
  simp [SaveIDPAccount, hv, lookupSection_setSection_ne f nA nB _ hne, hB]

/-- C7 witness: saving under "a" preserves the existing section "b". -/
theorem c7_save_frame_witness :
    lookupSection
      (SaveIDPAccount [("b", [("url", IniValue.str "x")])] "a" sampleOktaAccount).2 "b"
      = some [("url", IniValue.str "x")] :=
  c7_save_frame [("b", [("url", IniValue.str "x")])] "a" "b" sampleOktaAccount
    [("url", IniValue.str "x")] (by decide) (by decide) (by decide)

/-- C8: the OneLogin example scenario: a defaulted record with provider
"OneLogin", url "https://example.onelogin.com", mfa "push" and empty appID
and subdomain fails citing the missing app ID; with appID "123" it fails
citing the missing subdomain; with subdomain "acme" as well it validates. -/
theorem c8_onelogin_scenario :
    ({ NewIDPAccount with
       Provider := "OneLogin"
       URL := "https://example.onelogin.com"
       MFA := "push" } : IDPAccount).Validate = some "app ID empty in idp account" ∧
    ({ NewIDPAccount with
       Provider := "OneLogin"
       URL := "https://example.onelogin.com"
       MFA := "push"
       AppID := "123" } : IDPAccount).Validate = some "subdomain empty in idp account" ∧
    ({ NewIDPAccount with
       Provider := "OneLogin"
       URL := "https://example.onelogin.com"
       MFA := "push"
       AppID := "123"
       Subdomain := "acme" } : IDPAccount).Validate = none := by
  refine ⟨by decide, by decide, by decide⟩

/-- C9: LoadIDPAccount never returns the defined account-not-found error —
in fact it never returns any error in the section model — and an absent
section yields the defaulted record with the Name stamped instead. -/
theorem c9_no_not_found_error (f : IniFile) (p : String) :
    LoadIDPAccount f p ≠ Except.error ErrIdpAccountNotFound ∧
    (∀ e : String, LoadIDPAccount f p ≠ Except.error e) ∧
    (lookupSection f p = none →
      LoadIDPAccount f p = Except.ok { NewIDPAccount with Name := p }) := by
  refine ⟨?_, ?_, ?_⟩
  · simp [LoadIDPAccount, readAccount]
  · intro e
    simp [LoadIDPAccount, readAccount]
  · intro h
    have hm : mapTo [] NewIDPAccount = NewIDPAccount := rfl
    simp [LoadIDPAccount, readAccount, getSection, h, hm]

/-- C9 witness: at the empty file and profile "prod". -/
theorem c9_no_not_found_error_witness :
    LoadIDPAccount [] "prod" = Except.ok { NewIDPAccount with Name := "prod" } :=
  (c9_no_not_found_error [] "prod").2.2 rfl

/-- C10: for a record whose provider is "Okta", the rendered summary prints
the DisableSessions value on both the DisableSessions line and the
DisableRememberDevice line, and the DisableRememberDevice field never
affects the rendered output. -/
theorem c10_okta_render (a : IDPAccount) (h : a.Provider = "Okta") :
    a.toString
      = "account \x7b"
        ++ ("\n  DisableSessions: " ++ fmtBool a.DisableSessions
            ++ "\n  DisableRememberDevice: " ++ fmtBool a.DisableSessions)
        ++ "\n  URL: " ++ a.URL
        ++ "\n  Username: " ++ a.Username
        ++ "\n  Provider: " ++ a.Provider
        ++ "\n  MFA: " ++ a.MFA
        ++ "\n  SkipVerify: " ++ fmtBool a.SkipVerify
        ++ "\n  AmazonWebservicesURN: " ++ a.AmazonWebservicesURN
        ++ "\n  SessionDuration: " ++ ToString.toString a.SessionDuration
        ++ "\n  Profile: " ++ a.Profile
        ++ "\n  RoleARN: " ++ a.RoleARN
        ++ "\n  Region: " ++ a.Region
        ++ "\n\x7d" ∧
    (∀ b : Bool, ({ a with DisableRememberDevice := b } : IDPAccount).toString
      = a.toString) := by
  constructor
  · simp [IDPAccount.toString, h, String.append_assoc, String.append_empty,
      String.empty_append]
  · intro b
    rfl

/-- C10 witness: at a concrete Okta record with DisableSessions true and
DisableRememberDevice false flipped to true. -/
theorem c10_okta_render_witness :
    ({ sampleOktaAccount with DisableSessions := true } : IDPAccount).toString
      = "account \x7b"
        ++ ("\n  DisableSessions: " ++ fmtBool true
            ++ "\n  DisableRememberDevice: " ++ fmtBool true)
        ++ "\n  URL: " ++ ({ sampleOktaAccount with DisableSessions := true } : IDPAccount).URL
        ++ "\n  Username: " ++ ({ sampleOktaAccount with DisableSessions := true } : IDPAccount).Username
        ++ "\n  Provider: " ++ ({ sampleOktaAccount with DisableSessions := true } : IDPAccount).Provider
        ++ "\n  MFA: " ++ ({ sampleOktaAccount with DisableSessions := true } : IDPAccount).MFA
        ++ "\n  SkipVerify: " ++ fmtBool ({ sampleOktaAccount with DisableSessions := true } : IDPAccount).SkipVerify
        ++ "\n  AmazonWebservicesURN: " ++ ({ sampleOktaAccount with DisableSessions := true } : IDPAccount).AmazonWebservicesURN
        ++ "\n  SessionDuration: " ++ ToString.toString ({ sampleOktaAccount with DisableSessions := true } : IDPAccount).SessionDuration
        ++ "\n  Profile: " ++ ({ sampleOktaAccount with DisableSessions := true } : IDPAccount).Profile
        ++ "\n  RoleARN: " ++ ({ sampleOktaAccount with DisableSessions := true } : IDPAccount).RoleARN
        ++ "\n  Region: " ++ ({ sampleOktaAccount with DisableSessions := true } : IDPAccount).Region
        ++ "\n\x7d" ∧
    (∀ b : Bool,
      ({ { sampleOktaAccount with DisableSessions := true } with
         DisableRememberDevice := b } : IDPAccount).toString
        = ({ sampleOktaAccount with DisableSessions := true } : IDPAccount).toString) :=
  c10_okta_render { sampleOktaAccount with DisableSessions := true } (by decide)
